import Mathlib

/-!
# Verification of the Bootstrap dialog adapter
# (`src/js/overrides/dialog.js` of the vos_digital_solutions theme)

Shallow embedding of the dialog adapter: the factory `Drupal.dialog`
returns a handle with `show` / `showModal` / `close` / `updateButtons`
over a DOM element holding a Bootstrap modal skeleton.  JavaScript
values that flow through option objects are modelled by `JSVal`;
an absent object property is `Option.none`.  jQuery behaviours that
the code relies on (`$.extend` with a fresh `{}` target, `addClass`
token semantics, `attr`, selector misses degrading to no-ops, the
`/\bbtn-.*/` regex test) are embedded faithfully below.  Event
dispatch (`dispatchDialogEvent`, `$(window).trigger`) has no effect on
the state modelled here and is represented by recording the settings
object visible to `aftercreate` listeners.
-/

set_option autoImplicit false

namespace Dialog

/-- A JavaScript value as it appears in dialog options and return
values.  `object` is a plain-object literal by its field list
(`.object []` models `{}`). -/
inductive JSVal where
  | undef
  | null
  | bool (b : Bool)
  | num (n : Int)
  | str (s : String)
  | object (fields : List String)

/-- A property slot of a JS object: `none` models an absent property. -/
abbrev JSProp := Option JSVal

/-- `true` when a JS property read would yield `undefined`: the
property is absent, or present with value `undefined`. -/
def jsIsUndefined : JSProp → Bool
  | none => true
  | some .undef => true
  | some _ => false

/-- JS truthiness of a property value (`undefined`, `null`, `false`,
`0`, `''` are falsy). -/
def jsTruthy : JSProp → Bool
  | none => false
  | some .undef => false
  | some .null => false
  | some (.bool b) => b
  | some (.num n) => decide (n ≠ 0)
  | some (.str s) => decide (s ≠ "")
  | some (.object _) => true

/-- JS string coercion as performed by template interpolation
(`${settings.title}` renders a missing title as `"undefined"`). -/
def jsToStr : JSProp → String
  | none => "undefined"
  | some .undef => "undefined"
  | some .null => "null"
  | some (.bool true) => "true"
  | some (.bool false) => "false"
  | some (.num n) => toString n
  | some (.str s) => s
  | some (.object _) => "[object Object]"

/-- Element coercion used by `Array.prototype.join`: `undefined` and
`null` become the empty string, unlike template interpolation. -/
def jsJoinElem : JSProp → String
  | none => ""
  | some .undef => ""
  | some .null => ""
  | some v => jsToStr (some v)

/-- A `ButtonSpec` from the `buttons` option: `text`, optional `class`
(`klass` here), optional `attributes` map.  The `click` callback has no
effect on the state modelled and is omitted. -/
structure ButtonSpec where
  text : String := ""
  klass : Option String := none
  attributes : Option (List (String × String)) := none

/-- The dialog options / settings object.  Each field is a JS property
(`none` = absent).  `buttons` is kept structured as the list of button
specs; the default `close` callback never runs inside the modelled
operations and is omitted. -/
structure SettingsObj where
  autoOpen : JSProp := none
  dialogClasses : JSProp := none
  dialogShowHeader : JSProp := none
  dialogShowHeaderTitle : JSProp := none
  dialogStatic : JSProp := none
  dialogHeadingLevel : JSProp := none
  buttonClass : JSProp := none
  buttonPrimaryClass : JSProp := none
  title : JSProp := none
  modal : JSProp := none
  drupalAutoButtons : JSProp := none
  autoResize : JSProp := none
  buttons : Option (List ButtonSpec) := none

/-- The settings object `{}` that `$.extend({}, ...)` starts from. -/
def emptySettings : SettingsObj := {}

/-- The process-wide defaults `drupalSettings.dialog` assigned at the
top of dialog.js. -/
def drupalSettingsDialog : SettingsObj :=
  { autoOpen := some (.bool true)
    dialogClasses := some (.str "")
    dialogShowHeader := some (.bool true)
    dialogShowHeaderTitle := some (.bool true)
    dialogStatic := some (.bool false)
    dialogHeadingLevel := some (.num 5)
    buttonClass := some (.str "btn")
    buttonPrimaryClass := some (.str "btn-primary") }

/-- One property copy step of `$.extend(target, source)`: a source
property is copied unless its value is `undefined`. -/
def pickProp (t s : JSProp) : JSProp :=
  match s with
  | some v => if jsIsUndefined (some v) then t else some v
  | none => t

/-- `$.extend(target, source)` on settings objects (shallow, source
wins, `undefined` source values skipped).  Returns the updated target;
the call sites below always pass a fresh `{}` target, so the source
objects are only read. -/
def extendInto (t s : SettingsObj) : SettingsObj :=
  { autoOpen := pickProp t.autoOpen s.autoOpen
    dialogClasses := pickProp t.dialogClasses s.dialogClasses
    dialogShowHeader := pickProp t.dialogShowHeader s.dialogShowHeader
    dialogShowHeaderTitle := pickProp t.dialogShowHeaderTitle s.dialogShowHeaderTitle
    dialogStatic := pickProp t.dialogStatic s.dialogStatic
    dialogHeadingLevel := pickProp t.dialogHeadingLevel s.dialogHeadingLevel
    buttonClass := pickProp t.buttonClass s.buttonClass
    buttonPrimaryClass := pickProp t.buttonPrimaryClass s.buttonPrimaryClass
    title := pickProp t.title s.title
    modal := pickProp t.modal s.modal
    drupalAutoButtons := pickProp t.drupalAutoButtons s.drupalAutoButtons
    autoResize := pickProp t.autoResize s.autoResize
    buttons := s.buttons <|> t.buttons }

/-- `$.extend({}, defaults, options)` (the merge in `updateButtons`). -/
def mergeSettings2 (defaults options : SettingsObj) : SettingsObj :=
  extendInto (extendInto emptySettings defaults) options

/-- `$.extend({}, defaults, options, settings)` (the merge in
`openDialog`). -/
def mergeSettings3 (defaults options settings : SettingsObj) : SettingsObj :=
  extendInto (mergeSettings2 defaults options) settings

/-- `settingIsTrue` from dialog.js:
`setting !== undefined && (setting === true || setting === 'true')`. -/
def settingIsTrue (setting : JSProp) : Bool :=
  !jsIsUndefined setting &&
    (match setting with
     | some (.bool true) => true
     | some (.str s) => decide (s = "true")
     | _ => false)

/-! ## jQuery class-attribute semantics -/

/-- The whitespace class `rnothtmlwhite` splits on
(space, tab, LF, CR, FF). -/
def isHtmlWhite (c : Char) : Bool :=
  c = ' ' || c = '\t' || c = '\n' || c = '\r' || c = '\x0c'

/-- Word character for the JS regex `\b` boundary: `[A-Za-z0-9_]`. -/
def isWordChar (c : Char) : Bool :=
  ('a' ≤ c && c ≤ 'z') || ('A' ≤ c && c ≤ 'Z') || ('0' ≤ c && c ≤ '9') || c = '_'

/-- Does the character list start with the literal `btn-`? -/
def startsBtnDash : List Char → Bool
  | 'b' :: 't' :: 'n' :: '-' :: _ => true
  | _ => false

/-- Scanner for the regex `/\bbtn-.*/`: `atBoundary` holds when the
previous character (or the string start) puts a `\b` boundary before
the next character, given that `b` is a word character. -/
def btnScanAux : Bool → List Char → Bool
  | _, [] => false
  | atBoundary, c :: rest =>
      (atBoundary && startsBtnDash (c :: rest)) || btnScanAux (!isWordChar c) rest

/-- `s.match(/\bbtn-.*/) !== null`. -/
def matchBtnRegex (s : String) : Bool :=
  btnScanAux true s.toList

/-- Whitespace tokenizer on character lists (`cur` is the reversed
current token). -/
def tokAux : List Char → List Char → List (List Char)
  | cur, [] => if cur.isEmpty then [] else [cur.reverse]
  | cur, c :: rest =>
      if isHtmlWhite c then
        if cur.isEmpty then tokAux [] rest else cur.reverse :: tokAux [] rest
      else tokAux (c :: cur) rest

/-- The whitespace-separated tokens of a character list. -/
def charTokens (cs : List Char) : List (List Char) := tokAux [] cs

/-- The class tokens of a class-attribute string. -/
def classTokens (s : String) : List String :=
  (charTokens s.toList).map fun cs => String.mk cs

/-- `Array.prototype.join(' ')` over class tokens (also the
normalised class string jQuery writes back). -/
def joinTokens : List String → String
  | [] => ""
  | [t] => t
  | t :: rest => t ++ " " ++ joinTokens rest

/-- Append each token not already present, keeping order (the loop
inside jQuery `addClass`). -/
def insertTokens (cur toAdd : List String) : List String :=
  toAdd.foldl (fun acc t => if t ∈ acc then acc else acc ++ [t]) cur

/-- jQuery `addClass(s)` on a class attribute (`none` = attribute
absent): when `s` holds no token nothing changes (the attribute is not
even created); otherwise the missing tokens are appended and the
normalised token string is written back. -/
def addClassStr (cur : Option String) (s : String) : Option String :=
  if (classTokens s).isEmpty then cur
  else some (joinTokens (insertTokens (classTokens (cur.getD "")) (classTokens s)))

/-- jQuery `addClass` with an arbitrary JS value: only a string
argument adds classes. -/
def addClassJs (cur : Option String) (v : JSProp) : Option String :=
  match v with
  | some (.str s) => addClassStr cur s
  | _ => cur

/-! ## `updateButtons` -/

/-- The observable part of a built footer button: its class attribute
and its label markup. -/
structure JButton where
  classAttr : Option String
  text : String

/-- The button's class attribute just before the fallback check:
`$(button).attr(buttonObject.attributes)` (a `class` key sets the raw
attribute), then `.addClass(buttonObject.class)`. -/
def preFallbackClass (b : ButtonSpec) : Option String :=
  let afterAttr : Option String :=
    match b.attributes with
    | none => none
    | some attrs => attrs.lookup "class"
  match b.klass with
  | none => afterAttr
  | some s => addClassStr afterAttr s

/-- The guard `$(button).attr('class') && !$(button).attr('class').match(/\bbtn-.*/)`:
the attribute must exist, be a truthy (nonempty) string, and not match
the regex. -/
def fallbackCond (c : Option String) : Bool :=
  match c with
  | none => false
  | some s => decide (s ≠ "") && !matchBtnRegex s

/-- `classes.join(' ')` for
`classes = [settings.buttonClass, settings.buttonPrimaryClass]`. -/
def fallbackClasses (settings : SettingsObj) : String :=
  jsJoinElem settings.buttonClass ++ " " ++ jsJoinElem settings.buttonPrimaryClass

/-- Build one footer button from a `ButtonSpec` (the `$.each` body of
`updateButtons`). -/
def buildButton (settings : SettingsObj) (b : ButtonSpec) : JButton :=
  let pre := preFallbackClass b
  let post := if fallbackCond pre then addClassStr pre (fallbackClasses settings) else pre
  { classAttr := post, text := b.text }

/-- The DOM element bound by the factory.  `hasModalDialog` /
`hasModalContent` record whether the selectors `.modal-dialog` and
`.modal-dialog .modal-content` match inside the element (a selector
miss turns the corresponding jQuery chain into a no-op);
`hasModalFn` records whether `$element.modal` is defined.  The
`.modal-footer` under `.modal-content` is `footer` (the code removes
any existing one before appending, so at most one exists). -/
structure Element where
  hasModalDialog : Bool := true
  hasModalContent : Bool := true
  hasModalFn : Bool := true
  dialogClassAttr : Option String := none
  dataBsBackdrop : Option String := none
  dataBsKeyboard : Option String := none
  dataSettings : Option SettingsObj := none
  headers : List (Option String × String) := []
  footer : Option (List JButton) := none
  elemPointerEvents : Option String := none
  dialogPointerEvents : Option String := none
  modalShown : Bool := false

/-- The footer-replacement part of `updateButtons`: build the new
buttons, remove a `.modal-footer` matched by
`.modal-dialog .modal-content .modal-footer`, and append the new
footer to `.modal-dialog .modal-content` only when its HTML is
nonempty. -/
def updateButtonsEl (settings : SettingsObj) (buttons : List ButtonSpec)
    (el : Element) : Element :=
  let newBtns := buttons.map (buildButton settings)
  let el1 := if el.hasModalContent && el.footer.isSome then { el with footer := none } else el
  if !newBtns.isEmpty && el.hasModalContent then { el1 with footer := some newBtns } else el1

/-- `updateButtons(buttons)` with its own settings merge
`$.extend({}, drupalSettings.dialog, options)`. -/
def updateButtonsOp (defaults options : SettingsObj) (buttons : List ButtonSpec)
    (el : Element) : Element :=
  updateButtonsEl (mergeSettings2 defaults options) buttons el

/-! ## `openDialog` and `closeDialog` -/

/-- The dialog handle's observable state (`open`, `returnValue`). -/
structure DialogState where
  «open» : Bool
  returnValue : JSVal

/-- The handle as constructed by the factory:
`{ open: false, returnValue: undef }`. -/
def initDialog : DialogState := { «open» := false, returnValue := .undef }

/-- Outcome of one `openDialog` call.  `threw = true` models the
`TypeError` raised by `settings.buttons.length` when `buttons` is
`undefined`; `element` carries the DOM mutations applied before the
throw.  `aftercreateSettings` is the settings object as `aftercreate`
listeners see it; `returnedSettings` is its state when `openDialog`
returns. -/
structure OpenOutcome where
  element : Element
  threw : Bool
  aftercreateSettings : Option SettingsObj
  returnedSettings : Option SettingsObj

/-- Step 3 of `openDialog`: when `settings.dialogClasses` is defined,
reset the `.modal-dialog` class list to `modal-dialog` plus the given
classes (a selector miss makes the chain a no-op). -/
def openDialogClasses (settings : SettingsObj) (el : Element) : Element :=
  if !jsIsUndefined settings.dialogClasses && el.hasModalDialog then
    { el with dialogClassAttr :=
        addClassJs (addClassStr none "modal-dialog") settings.dialogClasses }
  else el

/-- Step 5 of `openDialog`: when `dialogShowHeader` is enabled, build
the header markup (heading with the interpolated title only when
`dialogShowHeaderTitle` is also enabled, plus the close button) and
prepend it to `.modal-dialog .modal-content`. -/
def openDialogHeader (settings : SettingsObj) (el : Element) : Element :=
  if settingIsTrue settings.dialogShowHeader && el.hasModalContent then
    { el with headers :=
        ((if settingIsTrue settings.dialogShowHeaderTitle then some (jsToStr settings.title)
          else none),
         jsToStr settings.dialogHeadingLevel) :: el.headers }
  else el

/-- Step 6 of `openDialog`: `dialogStatic` marks the modal
non-dismissible by backdrop and keyboard. -/
def openDialogStatic (settings : SettingsObj) (el : Element) : Element :=
  if settingIsTrue settings.dialogStatic then
    { el with dataBsBackdrop := some "static", dataBsKeyboard := some "false" }
  else el

/-- Step 7 of `openDialog`: when `settings.modal` is falsy, remove the
backdrop, allow keyboard dismissal, and pass pointer events through
the container while keeping the inner dialog interactive. -/
def openDialogNonModal (settings : SettingsObj) (el : Element) : Element :=
  if !jsTruthy settings.modal then
    { el with
        dataBsBackdrop := some "false"
        dataBsKeyboard := some "true"
        elemPointerEvents := some "none"
        dialogPointerEvents :=
          if el.hasModalDialog then some "auto" else el.dialogPointerEvents }
  else el

/-- Step 8 of `openDialog`: auto buttons (the caller has already ruled
out the `buttons === undefined` throw). -/
def openDialogButtons (settings : SettingsObj) (el : Element) : Element :=
  match settings.buttons with
  | some bs =>
      if settingIsTrue settings.drupalAutoButtons && bs.length > 0 then
        updateButtonsEl settings bs el
      else el
  | none => el

/-- Step 9 of `openDialog`: initialise and show via the modal library
when `$element.modal` is defined. -/
def openDialogShow (el : Element) : Element :=
  if el.hasModalFn then { el with modalShown := true } else el

/-- `openDialog(settings)` from dialog.js, in source order: merge,
`beforecreate` dispatch (no modelled state), dialog class reset,
`data-settings` attribute, header injection, `dialogStatic`
attributes, non-modal attributes and pointer events, auto buttons
(where `settings.buttons.length` throws when `buttons` is undefined),
modal init/show, and the `autoResize`-suppressed `aftercreate`
dispatch. -/
def openDialog (defaults options callSettings : SettingsObj) (el : Element) :
    OpenOutcome :=
  let settings := mergeSettings3 defaults options callSettings
  let el2 := { openDialogClasses settings el with dataSettings := some settings }
  let el5 :=
    openDialogNonModal settings (openDialogStatic settings (openDialogHeader settings el2))
  if settingIsTrue settings.drupalAutoButtons && settings.buttons.isNone then
    { element := el5, threw := true, aftercreateSettings := none, returnedSettings := none }
  else
    let el7 := openDialogShow (openDialogButtons settings el5)
    let settingsAtDispatch := { settings with autoResize := some (.bool false) }
    { element := el7, threw := false,
      aftercreateSettings := some settingsAtDispatch,
      returnedSettings := some { settingsAtDispatch with autoResize := settings.autoResize } }

/-- `closeDialog(value)`: hide the modal when the capability exists,
then set `returnValue` and `open` unconditionally. -/
def closeDialog (el : Element) (d : DialogState) (value : JSVal) :
    Element × DialogState :=
  let el1 := if el.hasModalFn then { el with modalShown := false } else el
  (el1, { «open» := false, returnValue := value })

/-- The public `dialog.close()` handle method: `closeDialog({})`. -/
def dialogClose (el : Element) (d : DialogState) : Element × DialogState :=
  closeDialog el d (.object [])

/-! ## The handle's operations and the process-wide state -/

/-- The process-wide mutable state touched by the component:
`drupalSettings.dialog`. -/
structure Global where
  dialogDefaults : SettingsObj

/-- `openDialog` with the global state threaded through: the merge
target is a fresh `{}`, so the defaults object is only read. -/
def openDialogG (g : Global) (options callSettings : SettingsObj) (el : Element) :
    Global × OpenOutcome :=
  (g, openDialog g.dialogDefaults options callSettings el)

/-- `updateButtons` with the global state threaded through. -/
def updateButtonsG (g : Global) (options : SettingsObj) (buttons : List ButtonSpec)
    (el : Element) : Global × Element :=
  (g, updateButtonsOp g.dialogDefaults options buttons el)

/-- The call-site settings object `{ modal: b }` of `show` /
`showModal`. -/
def modalArg (b : Bool) : SettingsObj := { modal := some (.bool b) }

/-- A public operation on the handle. -/
inductive Op where
  | «show»
  | showModal
  | close
  | update (buttons : List ButtonSpec)

/-- Combined state of one dialog instance. -/
structure SysState where
  global : Global
  element : Element
  dialog : DialogState

/-- Run one handle operation (`dialog.show`, `dialog.showModal`,
`dialog.close`, `dialog.updateButtons`). -/
def runOp (options : SettingsObj) (s : SysState) : Op → SysState
  | .«show» =>
      let (g, r) := openDialogG s.global options (modalArg false) s.element
      { global := g, element := r.element, dialog := s.dialog }
  | .showModal =>
      let (g, r) := openDialogG s.global options (modalArg true) s.element
      { global := g, element := r.element, dialog := s.dialog }
  | .close =>
      let (el, d) := dialogClose s.element s.dialog
      { s with element := el, dialog := d }
  | .update bs =>
      let (g, el) := updateButtonsG s.global options bs s.element
      { s with global := g, element := el }

/-- Run a sequence of handle operations. -/
def runOps (options : SettingsObj) (s : SysState) (ops : List Op) : SysState :=
  ops.foldl (runOp options) s

end Dialog

namespace Dialog

/-! ## Helper lemmas -/

theorem runOp_open_preserved (options : SettingsObj) (s : SysState) (op : Op)
    (h : s.dialog.«open» = false) : (runOp options s op).dialog.«open» = false := by
  cases op <;> simp [runOp, openDialogG, dialogClose, closeDialog, updateButtonsG, h]

theorem runOps_open_preserved (options : SettingsObj) (ops : List Op) :
    ∀ s : SysState, s.dialog.«open» = false →
      (runOps options s ops).dialog.«open» = false := by
  induction ops with
  | nil => intro s h; exact h
  | cons op rest ih =>
      intro s h
      exact ih _ (runOp_open_preserved options s op h)

/-! ## The claims -/

/-- C3: for every value `v` (undefined, null, objects included),
`closeDialog(v)` leaves the handle with `open = false` and
`returnValue = v`, stored verbatim, even when the element lacks the
modal capability (`hasModalFn` arbitrary). -/
theorem closeDialog_spec (el : Element) (d : DialogState) (v : JSVal) :
    ((closeDialog el d v).2).«open» = false ∧
      ((closeDialog el d v).2).returnValue = v :=
  ⟨rfl, rfl⟩

/-- C10: the public `close()` method takes no value and always calls
`closeDialog({})`, so `returnValue` afterwards is the empty object —
never `undefined` or `null`. -/
theorem dialogClose_returnValue (el : Element) (d : DialogState) :
    ((dialogClose el d).2).returnValue = JSVal.object [] ∧
      ((dialogClose el d).2).returnValue ≠ JSVal.undef ∧
      ((dialogClose el d).2).returnValue ≠ JSVal.null ∧
      ((dialogClose el d).2).«open» = false := by
  have h1 : ((dialogClose el d).2).returnValue = JSVal.object [] := rfl
  refine ⟨h1, ?_, ?_, rfl⟩
  · rw [h1]; intro h; exact JSVal.noConfusion h
  · rw [h1]; intro h; exact JSVal.noConfusion h

/-- C7: the option merges of `openDialog` and `updateButtons` target a
fresh `{}` object, so the process-wide defaults object
(`drupalSettings.dialog`) is unchanged by either operation. -/
theorem merge_preserves_defaults (g : Global) (options callSettings : SettingsObj)
    (el : Element) (buttons : List ButtonSpec) :
    (openDialogG g options callSettings el).1 = g ∧
      (updateButtonsG g options buttons el).1 = g :=
  ⟨rfl, rfl⟩

/-- C9: a boolean-like dialog option gate is enabled exactly when its
value is the boolean `true` or the string `'true'`; every other value
(`1`, other nonempty strings, objects, ...) counts as disabled. -/
theorem settingIsTrue_iff (v : JSProp) :
    settingIsTrue v = true ↔ v = some (.bool true) ∨ v = some (.str "true") := by
  constructor
  · intro h
    match v with
    | none => simp [settingIsTrue, jsIsUndefined] at h
    | some .undef => simp [settingIsTrue, jsIsUndefined] at h
    | some .null => simp [settingIsTrue, jsIsUndefined] at h
    | some (.bool true) => exact Or.inl rfl
    | some (.bool false) => simp [settingIsTrue, jsIsUndefined] at h
    | some (.num n) => simp [settingIsTrue, jsIsUndefined] at h
    | some (.str s) =>
        simp only [settingIsTrue, jsIsUndefined, Bool.not_false, Bool.true_and,
          decide_eq_true_eq] at h
        exact Or.inr (by rw [h])
    | some (.object f) => simp [settingIsTrue, jsIsUndefined] at h
  · rintro (rfl | rfl) <;> rfl

/-- C4: the handle's `open` field starts `false` and no sequence of
`show` / `showModal` / `close` / `updateButtons` calls ever makes it
`true` (`show` and `showModal` do not touch it). -/
theorem open_never_true (options : SettingsObj) (g : Global) (el : Element)
    (ops : List Op) :
    initDialog.«open» = false ∧
      (runOps options ⟨g, el, initDialog⟩ ops).dialog.«open» = false :=
  ⟨rfl, runOps_open_preserved options ops _ rfl⟩

/-- C2 counterexample: `openDialog` with a merged `drupalAutoButtons`
of `true` and no `buttons` field does not degrade to a no-op; reading
`settings.buttons.length` throws a `TypeError`. -/
theorem openDialog_throws_counterexample :
    (openDialog drupalSettingsDialog emptySettings
      { drupalAutoButtons := some (.bool true) } {}).threw = true := by
  rfl

theorem openDialog_threw_eq (defaults options callSettings : SettingsObj)
    (el : Element) :
    (openDialog defaults options callSettings el).threw =
      (settingIsTrue (mergeSettings3 defaults options callSettings).drupalAutoButtons &&
        (mergeSettings3 defaults options callSettings).buttons.isNone) := by
  simp only [openDialog]
  by_cases h : settingIsTrue
      (mergeSettings3 defaults options callSettings).drupalAutoButtons &&
      (mergeSettings3 defaults options callSettings).buttons.isNone
  · simp only [h, if_true]
  · rw [Bool.not_eq_true] at h
    simp only [h, Bool.false_eq_true, if_false]

/-- C2 (amended): `openDialog` throws exactly when the merged
`drupalAutoButtons` gate is enabled while the merged `buttons` field
is `undefined`; every other modelled input (missing skeleton, missing
modal capability, missing title, ...) completes without error. -/
theorem openDialog_threw_iff (defaults options callSettings : SettingsObj)
    (el : Element) :
    (openDialog defaults options callSettings el).threw =
      (settingIsTrue (mergeSettings3 defaults options callSettings).drupalAutoButtons &&
        (mergeSettings3 defaults options callSettings).buttons.isNone) :=
  openDialog_threw_eq defaults options callSettings el

end Dialog

namespace Dialog

theorem updateButtonsEl_proj (settings : SettingsObj) (buttons : List ButtonSpec)
    (el : Element) :
    (updateButtonsEl settings buttons el).dataBsBackdrop = el.dataBsBackdrop ∧
    (updateButtonsEl settings buttons el).dataBsKeyboard = el.dataBsKeyboard ∧
    (updateButtonsEl settings buttons el).elemPointerEvents = el.elemPointerEvents ∧
    (updateButtonsEl settings buttons el).dialogPointerEvents = el.dialogPointerEvents ∧
    (updateButtonsEl settings buttons el).hasModalFn = el.hasModalFn := by
  simp only [updateButtonsEl]
  split <;> split <;> simp

theorem openDialogShow_attrs (e : Element) :
    (openDialogShow e).dataBsBackdrop = e.dataBsBackdrop ∧
    (openDialogShow e).dataBsKeyboard = e.dataBsKeyboard ∧
    (openDialogShow e).elemPointerEvents = e.elemPointerEvents ∧
    (openDialogShow e).dialogPointerEvents = e.dialogPointerEvents := by
  simp only [openDialogShow]
  split <;> simp

theorem openDialogButtons_attrs (settings : SettingsObj) (e : Element) :
    (openDialogButtons settings e).dataBsBackdrop = e.dataBsBackdrop ∧
    (openDialogButtons settings e).dataBsKeyboard = e.dataBsKeyboard ∧
    (openDialogButtons settings e).elemPointerEvents = e.elemPointerEvents ∧
    (openDialogButtons settings e).dialogPointerEvents = e.dialogPointerEvents ∧
    (openDialogButtons settings e).hasModalFn = e.hasModalFn := by
  simp only [openDialogButtons]
  split
  · split
    · exact updateButtonsEl_proj _ _ _
    · exact ⟨rfl, rfl, rfl, rfl, rfl⟩
  · exact ⟨rfl, rfl, rfl, rfl, rfl⟩

theorem openDialogNonModal_attrs (settings : SettingsObj) (e : Element) :
    ((openDialogNonModal settings e).dataBsBackdrop =
      if !jsTruthy settings.modal then some "false" else e.dataBsBackdrop) ∧
    ((openDialogNonModal settings e).dataBsKeyboard =
      if !jsTruthy settings.modal then some "true" else e.dataBsKeyboard) ∧
    ((openDialogNonModal settings e).elemPointerEvents =
      if !jsTruthy settings.modal then some "none" else e.elemPointerEvents) ∧
    ((openDialogNonModal settings e).dialogPointerEvents =
      if !jsTruthy settings.modal && e.hasModalDialog then some "auto"
      else e.dialogPointerEvents) := by
  simp only [openDialogNonModal]
  split <;> rename_i h <;> simp [h]

theorem openDialogStatic_attrs (settings : SettingsObj) (e : Element) :
    ((openDialogStatic settings e).dataBsBackdrop =
      if settingIsTrue settings.dialogStatic then some "static" else e.dataBsBackdrop) ∧
    ((openDialogStatic settings e).dataBsKeyboard =
      if settingIsTrue settings.dialogStatic then some "false" else e.dataBsKeyboard) ∧
    (openDialogStatic settings e).elemPointerEvents = e.elemPointerEvents ∧
    (openDialogStatic settings e).dialogPointerEvents = e.dialogPointerEvents ∧
    (openDialogStatic settings e).hasModalDialog = e.hasModalDialog := by
  simp only [openDialogStatic]
  split <;> rename_i h <;> simp [h]

theorem openDialogHeader_attrs (settings : SettingsObj) (e : Element) :
    (openDialogHeader settings e).dataBsBackdrop = e.dataBsBackdrop ∧
    (openDialogHeader settings e).dataBsKeyboard = e.dataBsKeyboard ∧
    (openDialogHeader settings e).elemPointerEvents = e.elemPointerEvents ∧
    (openDialogHeader settings e).dialogPointerEvents = e.dialogPointerEvents ∧
    (openDialogHeader settings e).hasModalDialog = e.hasModalDialog := by
  simp only [openDialogHeader]
  split <;> simp

theorem openDialogClasses_attrs (settings : SettingsObj) (e : Element) :
    (openDialogClasses settings e).dataBsBackdrop = e.dataBsBackdrop ∧
    (openDialogClasses settings e).dataBsKeyboard = e.dataBsKeyboard ∧
    (openDialogClasses settings e).elemPointerEvents = e.elemPointerEvents ∧
    (openDialogClasses settings e).dialogPointerEvents = e.dialogPointerEvents ∧
    (openDialogClasses settings e).hasModalDialog = e.hasModalDialog := by
  simp only [openDialogClasses]
  split <;> simp

theorem openDialog_element_cases (defaults options callSettings : SettingsObj)
    (el : Element) :
    (openDialog defaults options callSettings el).element =
        openDialogShow (openDialogButtons (mergeSettings3 defaults options callSettings)
          (openDialogNonModal (mergeSettings3 defaults options callSettings)
            (openDialogStatic (mergeSettings3 defaults options callSettings)
              (openDialogHeader (mergeSettings3 defaults options callSettings)
                { openDialogClasses (mergeSettings3 defaults options callSettings) el with
                    dataSettings := some (mergeSettings3 defaults options callSettings) })))) ∨
    (openDialog defaults options callSettings el).element =
        openDialogNonModal (mergeSettings3 defaults options callSettings)
          (openDialogStatic (mergeSettings3 defaults options callSettings)
            (openDialogHeader (mergeSettings3 defaults options callSettings)
              { openDialogClasses (mergeSettings3 defaults options callSettings) el with
                  dataSettings := some (mergeSettings3 defaults options callSettings) })) := by
  simp only [openDialog]
  split
  · exact Or.inr rfl
  · exact Or.inl rfl

theorem openDialog_element_attrs (defaults options callSettings : SettingsObj)
    (el : Element) :
    ((openDialog defaults options callSettings el).element.dataBsBackdrop =
      if !jsTruthy (mergeSettings3 defaults options callSettings).modal then some "false"
      else if settingIsTrue (mergeSettings3 defaults options callSettings).dialogStatic then
        some "static"
      else el.dataBsBackdrop) ∧
    ((openDialog defaults options callSettings el).element.dataBsKeyboard =
      if !jsTruthy (mergeSettings3 defaults options callSettings).modal then some "true"
      else if settingIsTrue (mergeSettings3 defaults options callSettings).dialogStatic then
        some "false"
      else el.dataBsKeyboard) ∧
    ((openDialog defaults options callSettings el).element.elemPointerEvents =
      if !jsTruthy (mergeSettings3 defaults options callSettings).modal then some "none"
      else el.elemPointerEvents) ∧
    ((openDialog defaults options callSettings el).element.dialogPointerEvents =
      if !jsTruthy (mergeSettings3 defaults options callSettings).modal && el.hasModalDialog
      then some "auto"
      else el.dialogPointerEvents) := by
  obtain ⟨hc1, hc2, hc3, hc4, hc5⟩ :=
    openDialogClasses_attrs (mergeSettings3 defaults options callSettings) el
  obtain ⟨hh1, hh2, hh3, hh4, hh5⟩ :=
    openDialogHeader_attrs (mergeSettings3 defaults options callSettings)
      { openDialogClasses (mergeSettings3 defaults options callSettings) el with
          dataSettings := some (mergeSettings3 defaults options callSettings) }
  obtain ⟨hs1, hs2, hs3, hs4, hs5⟩ :=
    openDialogStatic_attrs (mergeSettings3 defaults options callSettings)
      (openDialogHeader (mergeSettings3 defaults options callSettings)
        { openDialogClasses (mergeSettings3 defaults options callSettings) el with
            dataSettings := some (mergeSettings3 defaults options callSettings) })
  obtain ⟨hn1, hn2, hn3, hn4⟩ :=
    openDialogNonModal_attrs (mergeSettings3 defaults options callSettings)
      (openDialogStatic (mergeSettings3 defaults options callSettings)
        (openDialogHeader (mergeSettings3 defaults options callSettings)
          { openDialogClasses (mergeSettings3 defaults options callSettings) el with
              dataSettings := some (mergeSettings3 defaults options callSettings) }))
  rcases openDialog_element_cases defaults options callSettings el with h | h
  · obtain ⟨hb1, hb2, hb3, hb4, hb5⟩ :=
      openDialogButtons_attrs (mergeSettings3 defaults options callSettings)
        (openDialogNonModal (mergeSettings3 defaults options callSettings)
          (openDialogStatic (mergeSettings3 defaults options callSettings)
            (openDialogHeader (mergeSettings3 defaults options callSettings)
              { openDialogClasses (mergeSettings3 defaults options callSettings) el with
                  dataSettings := some (mergeSettings3 defaults options callSettings) })))
    obtain ⟨hw1, hw2, hw3, hw4⟩ :=
      openDialogShow_attrs
        (openDialogButtons (mergeSettings3 defaults options callSettings)
          (openDialogNonModal (mergeSettings3 defaults options callSettings)
            (openDialogStatic (mergeSettings3 defaults options callSettings)
              (openDialogHeader (mergeSettings3 defaults options callSettings)
                { openDialogClasses (mergeSettings3 defaults options callSettings) el with
                    dataSettings := some (mergeSettings3 defaults options callSettings) }))))
    rw [h, hw1, hw2, hw3, hw4, hb1, hb2, hb3, hb4, hn1, hn2, hn3, hn4,
      hs1, hs2, hs3, hs4, hs5, hh1, hh2, hh3, hh4, hh5]
    simp [hc1, hc2, hc3, hc4, hc5]
  · rw [h, hn1, hn2, hn3, hn4, hs1, hs2, hs3, hs4, hs5, hh1, hh2, hh3, hh4, hh5]
    simp [hc1, hc2, hc3, hc4, hc5]

end Dialog

namespace Dialog

/-- C6: without a `dialogStatic` override, `openDialog` with
`modal = false` sets `data-bs-backdrop` to `'false'` and
`data-bs-keyboard` to `'true'` and makes the container pass pointer
events through while the inner dialog stays interactive, whereas
`modal = true` leaves both attributes and both pointer-event styles
untouched. -/
theorem openDialog_modal_attributes (defaults options callSettings : SettingsObj)
    (el : Element)
    (hStatic : settingIsTrue (mergeSettings3 defaults options callSettings).dialogStatic
      = false) :
    ((mergeSettings3 defaults options callSettings).modal = some (.bool false) →
      (openDialog defaults options callSettings el).element.dataBsBackdrop = some "false" ∧
      (openDialog defaults options callSettings el).element.dataBsKeyboard = some "true" ∧
      (openDialog defaults options callSettings el).element.elemPointerEvents = some "none" ∧
      (el.hasModalDialog = true →
        (openDialog defaults options callSettings el).element.dialogPointerEvents =
          some "auto")) ∧
    ((mergeSettings3 defaults options callSettings).modal = some (.bool true) →
      (openDialog defaults options callSettings el).element.dataBsBackdrop =
        el.dataBsBackdrop ∧
      (openDialog defaults options callSettings el).element.dataBsKeyboard =
        el.dataBsKeyboard ∧
      (openDialog defaults options callSettings el).element.elemPointerEvents =
        el.elemPointerEvents ∧
      (openDialog defaults options callSettings el).element.dialogPointerEvents =
        el.dialogPointerEvents) := by
  obtain ⟨h1, h2, h3, h4⟩ := openDialog_element_attrs defaults options callSettings el
  constructor
  · intro hm
    have ht : jsTruthy (mergeSettings3 defaults options callSettings).modal = false := by
      rw [hm]; rfl
    refine ⟨?_, ?_, ?_, ?_⟩
    · rw [h1, ht]; rfl
    · rw [h2, ht]; rfl
    · rw [h3, ht]; rfl
    · intro hd; rw [h4, ht, hd]; rfl
  · intro hm
    have ht : jsTruthy (mergeSettings3 defaults options callSettings).modal = true := by
      rw [hm]; rfl
    refine ⟨?_, ?_, ?_, ?_⟩
    · rw [h1, ht, hStatic]; rfl
    · rw [h2, ht, hStatic]; rfl
    · rw [h3, ht]; rfl
    · rw [h4, ht]; rfl

/-- C6 witness: concrete `show()`-style and `showModal()`-style calls
with the stock defaults on a full skeleton. -/
theorem openDialog_modal_attributes_witness :
    (openDialog drupalSettingsDialog emptySettings (modalArg false) {}).element.dataBsBackdrop
        = some "false" ∧
    (openDialog drupalSettingsDialog emptySettings (modalArg true) {}).element.dataBsBackdrop
        = ({} : Element).dataBsBackdrop :=
  ⟨((openDialog_modal_attributes drupalSettingsDialog emptySettings (modalArg false) {}
      (by rfl)).1 (by rfl)).1,
   ((openDialog_modal_attributes drupalSettingsDialog emptySettings (modalArg true) {}
      (by rfl)).2 (by rfl)).1⟩

theorem openDialog_settings_eq (defaults options callSettings : SettingsObj)
    (el : Element)
    (hc : (settingIsTrue (mergeSettings3 defaults options callSettings).drupalAutoButtons &&
      (mergeSettings3 defaults options callSettings).buttons.isNone) = false) :
    (openDialog defaults options callSettings el).aftercreateSettings =
      some { mergeSettings3 defaults options callSettings with
               autoResize := some (.bool false) } ∧
    (openDialog defaults options callSettings el).returnedSettings =
      some (mergeSettings3 defaults options callSettings) := by
  simp only [openDialog, hc, Bool.false_eq_true, if_false]
  refine ⟨?_, ?_⟩ <;> first | rfl | trivial

/-- C8: whenever `openDialog` returns, the settings object dispatched
with the `aftercreate` event carried `autoResize = false`, and the
settings object at return has `autoResize` restored to its pre-dispatch
value (the returned settings equal the merged settings). -/
theorem openDialog_autoResize_suppressed (defaults options callSettings : SettingsObj)
    (el : Element)
    (h : (openDialog defaults options callSettings el).threw = false) :
    (openDialog defaults options callSettings el).aftercreateSettings =
      some { mergeSettings3 defaults options callSettings with
               autoResize := some (.bool false) } ∧
    (openDialog defaults options callSettings el).returnedSettings =
      some (mergeSettings3 defaults options callSettings) := by
  apply openDialog_settings_eq
  rw [← openDialog_threw_eq defaults options callSettings el]
  exact h

/-- C8 witness: a concrete `showModal()`-style call. -/
theorem openDialog_autoResize_suppressed_witness :
    (openDialog drupalSettingsDialog emptySettings (modalArg true) {}).aftercreateSettings =
      some { mergeSettings3 drupalSettingsDialog emptySettings (modalArg true) with
               autoResize := some (.bool false) } ∧
    (openDialog drupalSettingsDialog emptySettings (modalArg true) {}).returnedSettings =
      some (mergeSettings3 drupalSettingsDialog emptySettings (modalArg true)) :=
  openDialog_autoResize_suppressed drupalSettingsDialog emptySettings (modalArg true) {}
    (by rfl)

/-- C5: `updateButtons` is idempotent — a second call with the same
buttons produces exactly the state of a single call; an empty new
footer is never appended while an existing footer is still removed;
and with a skeleton present a nonempty button list yields exactly the
footer holding the freshly built buttons. -/
theorem updateButtons_idempotent (defaults options : SettingsObj)
    (buttons : List ButtonSpec) (el : Element) :
    updateButtonsOp defaults options buttons
        (updateButtonsOp defaults options buttons el) =
      updateButtonsOp defaults options buttons el ∧
    (el.hasModalContent = true →
      (updateButtonsOp defaults options [] el).footer = none) ∧
    (buttons ≠ [] → el.hasModalContent = true →
      (updateButtonsOp defaults options buttons el).footer =
        some (buttons.map (buildButton (mergeSettings2 defaults options)))) := by
  obtain ⟨hmd, hmc, hmf, dca, bb, bk, ds, hs, ft, pe, dpe, ms⟩ := el
  refine ⟨?_, ?_, ?_⟩
  · simp only [updateButtonsOp, updateButtonsEl]
    cases hmc <;> cases ft <;>
      by_cases hb : (buttons.map (buildButton (mergeSettings2 defaults options))).isEmpty <;>
      simp_all
  · intro h
    simp only [updateButtonsOp, updateButtonsEl] at *
    cases ft <;> simp_all
  · intro hb h
    have hmap : (buttons.map (buildButton (mergeSettings2 defaults options))).isEmpty = false := by
      simp [List.isEmpty_iff, hb]
    simp only [updateButtonsOp, updateButtonsEl] at *
    cases ft <;> simp_all

/-- C5 witness: with the stock defaults on a skeleton element, an
empty button list leaves no footer and a one-button list leaves
exactly that button's footer. -/
theorem updateButtons_idempotent_witness :
    (updateButtonsOp drupalSettingsDialog emptySettings [] {}).footer = none ∧
    (updateButtonsOp drupalSettingsDialog emptySettings [{ text := "OK" }] {}).footer =
      some [buildButton (mergeSettings2 drupalSettingsDialog emptySettings)
              { text := "OK" }] :=
  ⟨(updateButtons_idempotent drupalSettingsDialog emptySettings [] {}).2.1 rfl,
   (updateButtons_idempotent drupalSettingsDialog emptySettings [{ text := "OK" }] {}).2.2
      (List.cons_ne_nil _ _) rfl⟩

end Dialog

namespace Dialog

/-! ## Tokenizer and regex lemmas for the button class fallback -/

theorem white_not_word (c : Char) (h : isHtmlWhite c = true) : isWordChar c = false := by
  simp only [isHtmlWhite, Bool.or_eq_true, decide_eq_true_eq] at h
  rcases h with (((rfl | rfl) | rfl) | rfl) | rfl <;> rfl

theorem stringMk_toList (s : String) : String.mk s.toList = s := by
  cases s
  rfl

theorem tokAux_tokens_ok (cs : List Char) :
    ∀ cur : List Char, (∀ c ∈ cur, isHtmlWhite c = false) →
      ∀ t ∈ tokAux cur cs, t ≠ [] ∧ ∀ c ∈ t, isHtmlWhite c = false := by
  induction cs with
  | nil =>
      intro cur hcur t ht
      by_cases hc : cur.isEmpty
      · simp [tokAux, hc] at ht
      · simp only [tokAux, hc, Bool.false_eq_true, if_false, List.mem_singleton] at ht
        subst ht
        refine ⟨?_, ?_⟩
        · intro hnil
          have hcur0 : cur = [] := by simpa using congrArg List.reverse hnil
          simp [hcur0] at hc
        · intro x hx
          exact hcur x (List.mem_reverse.mp hx)
  | cons c rest ih =>
      intro cur hcur t ht
      by_cases hw : isHtmlWhite c
      · by_cases hc : cur.isEmpty
        · simp only [tokAux, hw, if_true, hc] at ht
          exact ih [] (by intro x hx; cases hx) t ht
        · simp only [tokAux, hw, if_true, hc, Bool.false_eq_true, if_false,
            List.mem_cons] at ht
          rcases ht with rfl | ht
          · refine ⟨?_, ?_⟩
            · intro hnil
              have hcur0 : cur = [] := by simpa using congrArg List.reverse hnil
              simp [hcur0] at hc
            · intro x hx
              exact hcur x (List.mem_reverse.mp hx)
          · exact ih [] (by intro x hx; cases hx) t ht
      · simp only [tokAux, hw, Bool.false_eq_true, if_false] at ht
        refine ih (c :: cur) ?_ t ht
        intro x hx
        rcases List.mem_cons.mp hx with rfl | hx
        · simpa using hw
        · exact hcur x hx

theorem tokAux_head (cs : List Char) :
    ∀ cur : List Char, cur ≠ [] →
      ∃ d tl, d <+: cs ∧ tokAux cur cs = (cur.reverse ++ d) :: tl := by
  induction cs with
  | nil =>
      intro cur h
      refine ⟨[], [], List.nil_prefix, ?_⟩
      simp [tokAux, List.isEmpty_iff, h]
  | cons c rest ih =>
      intro cur h
      by_cases hw : isHtmlWhite c
      · refine ⟨[], tokAux [] rest, List.nil_prefix, ?_⟩
        simp [tokAux, hw, List.isEmpty_iff, h]
      · obtain ⟨d, tl, hd, heq⟩ := ih (c :: cur) (List.cons_ne_nil c cur)
        refine ⟨c :: d, tl, List.cons_prefix_cons.mpr ⟨rfl, hd⟩, ?_⟩
        simp only [tokAux, hw, Bool.false_eq_true, if_false]
        rw [heq]
        simp

theorem startsBtnDash_iff (cs : List Char) :
    startsBtnDash cs = true ↔ ['b', 't', 'n', '-'] <+: cs := by
  constructor
  · intro h
    unfold startsBtnDash at h
    split at h
    · rename_i rest
      exact ⟨rest, rfl⟩
    · cases h
  · rintro ⟨e, rfl⟩
    rfl

theorem startsBtnDash_of_prefix {c : Char} {d rest : List Char}
    (hp : d <+: rest) (h : startsBtnDash (c :: d) = true) :
    startsBtnDash (c :: rest) = true := by
  rw [startsBtnDash_iff] at h ⊢
  rcases List.cons_prefix_cons.mp h with ⟨rfl, h2⟩
  exact List.cons_prefix_cons.mpr ⟨rfl, h2.trans hp⟩

theorem btnScan_of_token (cs : List Char) :
    ∀ (cur : List Char) (b : Bool),
      (cur = [] → b = true) →
      (∃ t ∈ tokAux cur cs, startsBtnDash t = true ∧
        (cur = [] ∨ t ∈ (tokAux cur cs).tail)) →
      btnScanAux b cs = true := by
  induction cs with
  | nil =>
      rintro cur b hinv ⟨t, ht, hbtn, hcase⟩
      exfalso
      by_cases hc : cur.isEmpty
      · simp [tokAux, hc] at ht
      · rcases hcase with rfl | htail
        · simp at hc
        · simp [tokAux, hc] at htail
  | cons c rest ih =>
      rintro cur b hinv ⟨t, ht, hbtn, hcase⟩
      by_cases hw : isHtmlWhite c
      · have hwc : isWordChar c = false := white_not_word c hw
        have hrest : btnScanAux true rest = true := by
          by_cases hc : cur.isEmpty
          · have hcur0 : cur = [] := by simpa using hc
            subst hcur0
            refine ih [] true (fun _ => rfl) ⟨t, ?_, hbtn, Or.inl rfl⟩
            simpa [tokAux, hw] using ht
          · have hmem : t ∈ tokAux [] rest := by
              rcases hcase with rfl | htail
              · simp at hc
              · simpa [tokAux, hw, hc] using htail
            exact ih [] true (fun _ => rfl) ⟨t, hmem, hbtn, Or.inl rfl⟩
        simp [btnScanAux, hrest, hwc]
      · have heq : tokAux cur (c :: rest) = tokAux (c :: cur) rest := by
          simp [tokAux, hw]
        by_cases hc : cur.isEmpty
        · have hcur0 : cur = [] := by simpa using hc
          subst hcur0
          have hb : b = true := hinv rfl
          subst hb
          obtain ⟨d, tl, hd, hhead⟩ := tokAux_head rest [c] (List.cons_ne_nil _ _)
          rw [heq, hhead] at ht
          simp only [List.reverse_cons, List.reverse_nil, List.nil_append,
            List.singleton_append, List.mem_cons] at ht
          rcases ht with rfl | htl
          · have hmatch : startsBtnDash (c :: rest) = true :=
              startsBtnDash_of_prefix hd hbtn
            simp [btnScanAux, hmatch]
          · have hscan : btnScanAux (!isWordChar c) rest = true := by
              refine ih [c] (!isWordChar c)
                (fun hcon => absurd hcon (List.cons_ne_nil _ _)) ⟨t, ?_, hbtn, Or.inr ?_⟩
              · rw [hhead]
                exact List.mem_cons_of_mem _ htl
              · rw [hhead]
                exact htl
            simp [btnScanAux, hscan]
        · rcases hcase with rfl | htail
          · simp at hc
          · rw [heq] at ht htail
            have hscan : btnScanAux (!isWordChar c) rest = true :=
              ih (c :: cur) (!isWordChar c)
                (fun hcon => absurd hcon (List.cons_ne_nil _ _)) ⟨t, ht, hbtn, Or.inr htail⟩
            simp [btnScanAux, hscan]

theorem classTokens_ok (s : String) :
    ∀ t ∈ classTokens s, t.toList ≠ [] ∧ ∀ c ∈ t.toList, isHtmlWhite c = false := by
  intro t ht
  unfold classTokens charTokens at ht
  rcases List.mem_map.mp ht with ⟨tc, htc, rfl⟩
  have hok := tokAux_tokens_ok s.toList [] (by intro x hx; cases hx) tc htc
  have hl : (String.mk tc).toList = tc := rfl
  rw [hl]
  exact hok

theorem matchBtnRegex_of_btn_token (s0 : String)
    (h : ∃ t ∈ classTokens s0, startsBtnDash t.toList = true) :
    matchBtnRegex s0 = true := by
  obtain ⟨t, ht, hbtn⟩ := h
  unfold classTokens charTokens at ht
  rcases List.mem_map.mp ht with ⟨tc, htc, rfl⟩
  have hl : (String.mk tc).toList = tc := rfl
  rw [hl] at hbtn
  exact btnScan_of_token s0.toList [] true (fun _ => rfl) ⟨tc, htc, hbtn, Or.inl rfl⟩

end Dialog

namespace Dialog

/-! ## `addClass` token-insertion lemmas -/

theorem insertTokens_nil (cur : List String) : insertTokens cur [] = cur := rfl

theorem insertTokens_cons (cur : List String) (a : String) (toAdd : List String) :
    insertTokens cur (a :: toAdd) =
      insertTokens (if a ∈ cur then cur else cur ++ [a]) toAdd := by
  simp only [insertTokens, List.foldl_cons]

theorem mem_insertTokens_of_mem (toAdd : List String) :
    ∀ (cur : List String) (t : String), t ∈ cur → t ∈ insertTokens cur toAdd := by
  induction toAdd with
  | nil => intro cur t h; exact h
  | cons a rest ih =>
      intro cur t h
      rw [insertTokens_cons]
      apply ih
      split
      · exact h
      · exact List.mem_append_left _ h

theorem mem_insertTokens_of_mem_add (toAdd : List String) :
    ∀ (cur : List String) (t : String), t ∈ toAdd → t ∈ insertTokens cur toAdd := by
  induction toAdd with
  | nil => intro cur t h; cases h
  | cons a rest ih =>
      intro cur t h
      rw [insertTokens_cons]
      rcases List.mem_cons.mp h with rfl | h
      · apply mem_insertTokens_of_mem
        split
        · assumption
        · exact List.mem_append_right _ (List.mem_singleton.mpr rfl)
      · exact ih _ t h

theorem mem_of_mem_insertTokens (toAdd : List String) :
    ∀ (cur : List String) (t : String),
      t ∈ insertTokens cur toAdd → t ∈ cur ∨ t ∈ toAdd := by
  induction toAdd with
  | nil => intro cur t h; exact Or.inl h
  | cons a rest ih =>
      intro cur t h
      rw [insertTokens_cons] at h
      rcases ih _ t h with h1 | h1
      · split at h1
        · exact Or.inl h1
        · rcases List.mem_append.mp h1 with h2 | h2
          · exact Or.inl h2
          · exact Or.inr (List.mem_cons.mpr (Or.inl (List.mem_singleton.mp h2)))
      · exact Or.inr (List.mem_cons.mpr (Or.inr h1))

theorem count_insertTokens_of_mem (toAdd : List String) :
    ∀ (cur : List String) (t : String), t ∈ cur →
      (insertTokens cur toAdd).count t = cur.count t := by
  induction toAdd with
  | nil => intro cur t h; rfl
  | cons a rest ih =>
      intro cur t h
      rw [insertTokens_cons]
      split
      · exact ih _ t h
      · rename_i ha
        rw [ih _ t (List.mem_append_left _ h), List.count_append]
        have hne : t ≠ a := fun he => ha (he ▸ h)
        simp [List.count_cons, hne]

theorem count_insertTokens_of_not_mem (toAdd : List String) :
    ∀ (cur : List String) (t : String), t ∉ cur →
      (insertTokens cur toAdd).count t = if t ∈ toAdd then 1 else 0 := by
  induction toAdd with
  | nil =>
      intro cur t h
      simp [insertTokens_nil, List.count_eq_zero.mpr h]
  | cons a rest ih =>
      intro cur t h
      rw [insertTokens_cons]
      by_cases hta : t = a
      · subst hta
        rw [if_neg h]
        rw [count_insertTokens_of_mem rest _ t
          (List.mem_append_right _ (List.mem_singleton.mpr rfl))]
        rw [List.count_append]
        simp [List.count_eq_zero.mpr h, List.count_cons]
      · have hiff : (t ∈ a :: rest) = (t ∈ rest) := by simp [List.mem_cons, hta]
        split
        · rw [ih _ t h]
          simp [List.mem_cons, hta]
        · have h2 : t ∉ cur ++ [a] := by
            intro hx
            rcases List.mem_append.mp hx with hx | hx
            · exact h hx
            · exact hta (List.mem_singleton.mp hx)
          rw [ih _ t h2]
          simp [List.mem_cons, hta]

/-! ## `joinTokens` round trip -/

theorem tokAux_append_nonwhite :
    ∀ (t cur cs : List Char), (∀ c ∈ t, isHtmlWhite c = false) →
      tokAux cur (t ++ cs) = tokAux (t.reverse ++ cur) cs := by
  intro t
  induction t with
  | nil => intro cur cs _; simp
  | cons c t' ih =>
      intro cur cs h
      have hc : isHtmlWhite c = false := h c (List.mem_cons_self _ _)
      simp only [List.cons_append, tokAux, hc, Bool.false_eq_true, if_false]
      show tokAux (c :: cur) (t' ++ cs) = tokAux ((c :: t').reverse ++ cur) cs
      rw [ih (c :: cur) cs (fun x hx => h x (List.mem_cons_of_mem _ hx))]
      simp

theorem charTokens_single (tc : List Char) (h1 : tc ≠ [])
    (h2 : ∀ c ∈ tc, isHtmlWhite c = false) :
    charTokens tc = [tc] := by
  unfold charTokens
  have := tokAux_append_nonwhite tc [] [] h2
  rw [List.append_nil] at this
  rw [this]
  simp [tokAux, List.isEmpty_iff, h1]

theorem classTokens_single (t : String) (h1 : t.toList ≠ [])
    (h2 : ∀ c ∈ t.toList, isHtmlWhite c = false) :
    classTokens t = [t] := by
  unfold classTokens
  rw [charTokens_single t.toList h1 h2]
  simp [stringMk_toList]

theorem charTokens_cons_space (tc cs : List Char) (h1 : tc ≠ [])
    (h2 : ∀ c ∈ tc, isHtmlWhite c = false) :
    charTokens (tc ++ ' ' :: cs) = tc :: charTokens cs := by
  unfold charTokens
  rw [tokAux_append_nonwhite tc [] (' ' :: cs) h2, List.append_nil]
  have hw : isHtmlWhite ' ' = true := rfl
  have hne : tc.reverse.isEmpty = false := by
    simp [List.isEmpty_iff, h1]
  simp [tokAux, hw, hne]

theorem classTokens_joinTokens :
    ∀ toks : List String,
      (∀ t ∈ toks, t.toList ≠ [] ∧ ∀ c ∈ t.toList, isHtmlWhite c = false) →
      classTokens (joinTokens toks) = toks := by
  intro toks
  induction toks with
  | nil => intro _; rfl
  | cons t rest ih =>
      intro h
      obtain ⟨h1, h2⟩ := h t (List.mem_cons_self _ _)
      cases rest with
      | nil => exact classTokens_single t h1 h2
      | cons u rest2 =>
          have hrec := ih (fun x hx => h x (List.mem_cons_of_mem _ hx))
          have hdata : (t ++ " " ++ joinTokens (u :: rest2)).toList
              = t.toList ++ ' ' :: (joinTokens (u :: rest2)).toList := by
            show (t ++ " " ++ joinTokens (u :: rest2)).data
              = t.data ++ ' ' :: (joinTokens (u :: rest2)).data
            rw [String.data_append, String.data_append]
            rw [show (" " : String).data = [' '] from rfl]
            simp
          show classTokens (t ++ " " ++ joinTokens (u :: rest2)) = t :: u :: rest2
          unfold classTokens
          rw [show (t ++ " " ++ joinTokens (u :: rest2)).toList
              = t.toList ++ ' ' :: (joinTokens (u :: rest2)).toList from hdata]
          rw [charTokens_cons_space t.toList _ h1 h2]
          unfold classTokens at hrec
          simp only [List.map_cons, stringMk_toList]
          congr 1

end Dialog

namespace Dialog

/-- C1 (amended): in `updateButtons`, (1) a button whose assembled
class list holds a token starting with `btn-` never receives the
fallback `buttonClass`/`buttonPrimaryClass` (the original claim's true
half — the regex `/\bbtn-.*/` matches any token-initial `btn-`);
(2) a button with no class attribute at all also receives no fallback
(contrary to the original claim, since the guard requires a truthy
class attribute); and (3) when the fallback fires (nonempty assembled
class not matching the regex, which a token such as `my-btn-x` also
suppresses), every fallback class token ends up in the button's class
list — newly added tokens exactly once, already-present tokens with
unchanged multiplicity. -/
theorem updateButtons_fallback (settings : SettingsObj) (b : ButtonSpec) :
    ((∃ t ∈ classTokens ((preFallbackClass b).getD ""), startsBtnDash t.toList = true) →
      (buildButton settings b).classAttr = preFallbackClass b) ∧
    (preFallbackClass b = none → (buildButton settings b).classAttr = none) ∧
    (fallbackCond (preFallbackClass b) = true →
      ∀ t ∈ classTokens (fallbackClasses settings),
        t ∈ classTokens (((buildButton settings b).classAttr).getD "") ∧
        (t ∉ classTokens ((preFallbackClass b).getD "") →
          (classTokens (((buildButton settings b).classAttr).getD "")).count t = 1) ∧
        (t ∈ classTokens ((preFallbackClass b).getD "") →
          (classTokens (((buildButton settings b).classAttr).getD "")).count t =
            (classTokens ((preFallbackClass b).getD "")).count t)) := by
  refine ⟨?_, ?_, ?_⟩
  · intro hex
    cases hpre : preFallbackClass b with
    | none =>
        rw [hpre] at hex
        obtain ⟨t, ht, _⟩ := hex
        simp only [Option.getD_none] at ht
        cases ht
    | some s0 =>
        rw [hpre] at hex
        simp only [Option.getD_some] at hex
        have hm : matchBtnRegex s0 = true := matchBtnRegex_of_btn_token s0 hex
        simp [buildButton, fallbackCond, hpre, hm]
  · intro hpre
    simp [buildButton, fallbackCond, hpre]
  · intro hcond t htmem
    cases hpre : preFallbackClass b with
    | none => rw [hpre] at hcond; simp [fallbackCond] at hcond
    | some s0 =>
        rw [hpre] at hcond
        have hpost : (buildButton settings b).classAttr =
            addClassStr (some s0) (fallbackClasses settings) := by
          simp [buildButton, hpre, hcond]
        have hne : (classTokens (fallbackClasses settings)).isEmpty = false := by
          cases hcl : classTokens (fallbackClasses settings) with
          | nil => rw [hcl] at htmem; cases htmem
          | cons x xs => rfl
        rw [hpost]
        unfold addClassStr
        rw [hne]
        simp only [Bool.false_eq_true, if_false, Option.getD_some]
        have hok : ∀ x ∈ insertTokens (classTokens s0)
            (classTokens (fallbackClasses settings)),
            x.toList ≠ [] ∧ ∀ c ∈ x.toList, isHtmlWhite c = false := by
          intro x hx
          rcases mem_of_mem_insertTokens _ _ _ hx with h | h
          · exact classTokens_ok s0 x h
          · exact classTokens_ok _ x h
        rw [classTokens_joinTokens _ hok]
        refine ⟨mem_insertTokens_of_mem_add _ _ t htmem, ?_, ?_⟩
        · intro hnm
          rw [count_insertTokens_of_not_mem _ _ t hnm]
          simp [htmem]
        · intro hm
          exact count_insertTokens_of_mem _ _ t hm

/-- C1 counterexample: the `ButtonSpec` `{ text: 'OK' }` (no `class`,
no `attributes`) has an assembled class list without any `btn-*`
token, yet the built button ends with no class attribute at all — the
fallback classes are not appended, because the guard
`$(button).attr('class') && ...` is falsy for a missing attribute. -/
theorem updateButtons_fallback_counterexample :
    preFallbackClass { text := "OK" } = none ∧
    (∀ t ∈ classTokens ((preFallbackClass { text := "OK" }).getD ""),
      startsBtnDash t.toList = false) ∧
    (buildButton drupalSettingsDialog { text := "OK" }).classAttr = none := by
  refine ⟨rfl, ?_, rfl⟩
  intro t ht
  simp only [preFallbackClass, Option.getD_none] at ht
  cases ht

/-- C1 witness: a caller class of `btn-secondary` suppresses the
fallback: the built button's class attribute equals the pre-fallback
one. -/
theorem updateButtons_fallback_witness :
    (buildButton drupalSettingsDialog
        { text := "OK", klass := some "btn-secondary" }).classAttr =
      preFallbackClass { text := "OK", klass := some "btn-secondary" } :=
  (updateButtons_fallback drupalSettingsDialog
      { text := "OK", klass := some "btn-secondary" }).1 (by decide)

end Dialog
